import Mathlib

/-!
Shallow embedding of `main_otel.py`: the mapping from GitHub workflow
run / job / step records to OpenTelemetry span data.

Conventions of the embedding:
  * A Python `datetime` value is modelled as whole seconds since the Unix
    epoch plus a microsecond part (the resolution of `datetime`); the
    arithmetic of `convert_time` (`int(time.timestamp() * 1e9)`) is modelled
    exactly, i.e. without the IEEE-754 rounding of the intermediate float.
  * A Python value that may be `None` is an `Option`.
  * Code that can raise an exception is a function into `Except String`;
    an uncaught exception is `Except.error`.
  * Telemetry spans are explicit `SpanData` records: the list of
    `set_attribute` calls in source order, the events added, the status and
    the optional end time.
  * External collaborators (the GitHub client) are parameters: the
    check-run annotation lookup is a function argument of
    `fetch_annotations`, and `get_args` records the client calls it makes.
-/

/-- A wall-clock timestamp as Python's `datetime` sees it: whole seconds
since the epoch (possibly negative) and a microsecond fraction. -/
structure Datetime where
  sec : Int
  usec : Nat
  usec_lt : usec < 1000000
deriving DecidableEq, Repr

/-- The exact value of `int(t.timestamp() * 1e9)` for a present `datetime`
`t`, computed without floating-point rounding. -/
def Datetime.toNanos (t : Datetime) : Int :=
  t.sec * 1000000000 + (t.usec : Int) * 1000

/-- `convert_time` (main_otel.py line 345): `int(time.timestamp() * 1e9)`.
Applied to `None` the attribute access `time.timestamp` raises, which the
embedding renders as `Except.error`. -/
def convert_time : Option Datetime → Except String Int
  | none => Except.error "AttributeError: NoneType has no attribute timestamp"
  | some t => Except.ok t.toNanos

/-- Values passed to `set_attribute` / event attributes.  `noneVal` records
the Python `None` being passed (as `run.updated_at` can be), and
`secondsFromNanos n` records the float `n / 1e9` produced by the
queue-time division, with its exact numerator kept. -/
inductive AttrValue where
  | str (s : String)
  | int (n : Int)
  | bool (b : Bool)
  | noneVal
  | secondsFromNanos (n : Int)
deriving DecidableEq, Repr

/-- An optional source string attribute: Python passes the value through,
`None` included. -/
def optStrAttr : Option String → AttrValue
  | none => AttrValue.noneVal
  | some s => AttrValue.str s

/-- An optional integer attribute (e.g. the possibly-absent normalized
completion time stored in `run.updated_at`). -/
def optIntAttr : Option Int → AttrValue
  | none => AttrValue.noneVal
  | some n => AttrValue.int n

/-- Span status: OpenTelemetry `StatusCode.ERROR` with its message, or the
default unset status. -/
inductive SpanStatus where
  | unset
  | error (msg : String)
deriving DecidableEq, Repr

/-- One span event (`add_event`): name (the job's conclusion, possibly
`None`), timestamp, attributes. -/
structure EventData where
  name : Option String
  timestamp : Int
  attributes : List (String × AttrValue)
deriving DecidableEq, Repr

/-- An emitted span: name, optional parent span name, start time, optional
end time (absent while the span is left open), the attributes in the order
they were set, the events, and the status. -/
structure SpanData where
  name : String
  parent : Option String
  startTime : Int
  endTime : Option Int
  attributes : List (String × AttrValue)
  events : List EventData
  status : SpanStatus
deriving DecidableEq, Repr

/-- First attribute with the given key, in `set_attribute` order. -/
def lookupAttr (key : String) : List (String × AttrValue) → Option AttrValue
  | [] => none
  | (k, v) :: rest => if k = key then some v else lookupAttr key rest

/-- Python `s.split(sep)` for a single-character separator, on the
character list of the string: splitting the empty string yields `[""]`,
every occurrence of the separator starts a new field. -/
def pySplit (sep : Char) : List Char → List (List Char)
  | [] => [[]]
  | c :: rest =>
    let r := pySplit sep rest
    if c = sep then [] :: r
    else
      match r with
      | [] => [[c]]
      | g :: gs => (c :: g) :: gs

/-- The run display name (main_otel.py line 170):
`run.path.split("/")[-1].split(".")[0]`.  Python's `[-1]` / `[0]` on the
nonempty results of `split` are `getLastD` / `headD`. -/
def run_display_name (path : String) : String :=
  let base := (pySplit '/' path.toList).getLastD []
  String.mk ((pySplit '.' base).headD [])

/-- One step record of a job. -/
structure Step where
  name : String
  number : Int
  started_at : Option Datetime
  completed_at : Option Datetime
  conclusion : Option String
deriving DecidableEq, Repr

/-- The dynamic shape of a job's `labels` field as the code inspects it:
`None`, a Python list, a Python tuple, or a scalar value (a string). -/
inductive LabelsField where
  | pyNone
  | pyList (ls : List String)
  | pyTuple (ls : List String)
  | pyScalar (s : String)
deriving DecidableEq, Repr

/-- Label normalization (main_otel.py lines 243-249): `None` becomes the
empty list, a list or tuple is kept, anything else is wrapped in a
singleton list. -/
def normalizeLabels : LabelsField → List String
  | LabelsField.pyNone => []
  | LabelsField.pyList ls => ls
  | LabelsField.pyTuple ls => ls
  | LabelsField.pyScalar s => [s]

/-- A job record as read from the GitHub API; `steps` is the job's step
list used by `process_steps`. -/
structure Job where
  id : Int
  run_id : Int
  name : String
  run_attempt : Option Int
  labels : LabelsField
  runner_group_id : Option Int
  runner_group_name : Option String
  runner_name : Option String
  created_at : Option Datetime
  started_at : Option Datetime
  completed_at : Option Datetime
  conclusion : Option String
  steps : List Step
deriving DecidableEq, Repr

/-- A workflow-run record as read from the GitHub API; `jobs` is the result
of `run.jobs()`. -/
structure Run where
  id : Int
  run_number : Int
  run_attempt : Option Int
  html_url : String
  event : String
  name : Option String
  path : String
  status : String
  conclusion : Option String
  run_started_at : Option Datetime
  updated_at : Option Datetime
  jobs : List Job
deriving DecidableEq, Repr

/-- An annotation record (message, level, title) from a check run. -/
structure AnnotationData where
  message : String
  annotation_level : String
  title : String
deriving DecidableEq, Repr

/-- Python truthiness of an optional string (`if error:`): `None` and the
empty string are falsy. -/
def pyTruthyStr : Option String → Bool
  | none => false
  | some s => !s.isEmpty

/-- Python truthiness of an optional integer (`if run_completed_at:`):
`None` and `0` are falsy, every other integer is truthy. -/
def pyTruthyInt : Option Int → Bool
  | none => false
  | some n => n != 0

/-- The normalized completion time of a run (main_otel.py lines 166-169):
only a run whose `status` is `"completed"` has `convert_time` applied to
its `updated_at`; any other status yields `None` without touching
`updated_at`. -/
def runCompletedAt (run : Run) : Except String (Option Int) :=
  if run.status = "completed" then
    match convert_time run.updated_at with
    | Except.error e => Except.error e
    | Except.ok t => Except.ok (some t)
  else
    Except.ok none

/-- The span built for one run (main_otel.py lines 170-207): display name,
attributes in `set_attribute` order, failure markers when the conclusion is
`"failure"`, and an end time exactly when `run_completed_at` is truthy. -/
def mkRunSpan (workflowId : Int) (executionId today : String) (run : Run)
    (run_start_time : Int) (run_completed_at : Option Int) : SpanData :=
  let baseAttrs : List (String × AttrValue) :=
    [("execution.id", AttrValue.str executionId),
     ("workflow.id", AttrValue.int workflowId),
     ("run.id", AttrValue.int run.id),
     ("run.run_number", AttrValue.int run.run_number),
     ("run.run_attempt", AttrValue.int
        (match run.run_attempt with
         | none => 1
         | some a => a)),
     ("run.html_url", AttrValue.str run.html_url),
     ("run.event", AttrValue.str run.event),
     ("run.name", optStrAttr run.name),
     ("run.run_started_at", AttrValue.int run_start_time),
     ("run.updated_at", optIntAttr run_completed_at),
     ("my_date", AttrValue.str today),
     ("run.conclusion", optStrAttr run.conclusion)]
  let failMsg := "Run " ++ toString run.run_number ++ " failed"
  let attrs :=
    if run.conclusion = some "failure" then
      baseAttrs ++ [("error", AttrValue.bool true),
                    ("error.message", AttrValue.str failMsg)]
    else baseAttrs
  { name := run_display_name run.path
    parent := none
    startTime := run_start_time
    endTime := if pyTruthyInt run_completed_at then run_completed_at else none
    attributes := attrs
    events := []
    status :=
      if run.conclusion = some "failure" then SpanStatus.error failMsg
      else SpanStatus.unset }

/-- Processing of a single run inside the `process_runs` loop: normalize
the start time (raising on an absent one), compute the optional completion
time, and build the span. -/
def processRun (workflowId : Int) (executionId today : String) (run : Run) :
    Except String SpanData :=
  match convert_time run.run_started_at with
  | Except.error e => Except.error e
  | Except.ok run_start_time =>
    match runCompletedAt run with
    | Except.error e => Except.error e
    | Except.ok run_completed_at =>
      Except.ok (mkRunSpan workflowId executionId today run run_start_time
        run_completed_at)

/-- `process_runs` (main_otel.py lines 154-211) over an already-fetched run
list: one span per run in iteration order; an exception from
`convert_time` aborts the whole pass. -/
def process_runs (workflowId : Int) (executionId today : String) :
    List Run → Except String (List SpanData)
  | [] => Except.ok []
  | run :: rest =>
    match processRun workflowId executionId today run with
    | Except.error e => Except.error e
    | Except.ok s =>
      match process_runs workflowId executionId today rest with
      | Except.error e => Except.error e
      | Except.ok ss => Except.ok (s :: ss)

/-- `fetch_annotations` (main_otel.py lines 349-355).  The GitHub side
(`repo.get_check_run(job_id).get_annotations()`) is the `fetchFromApi`
parameter; any exception it raises is caught and turned into an empty
annotation list plus the exception's string. -/
def fetch_annotations (fetchFromApi : Int → Except String (List AnnotationData))
    (job_id : Int) : List AnnotationData × Option String :=
  match fetchFromApi job_id with
  | Except.ok anns => (anns, none)
  | Except.error e => ([], some e)

/-- The span built for one job (main_otel.py lines 227-294): label
normalization, attributes in `set_attribute` order (runner fields only when
present, the group-name guard testing `runner_group_id` as in the source),
annotation events only when the fetch error is falsy, failure markers when
the conclusion is `"failure"`, and an unconditional end time. -/
def mkJobSpan (executionId : String) (parentName : String) (job : Job)
    (job_started_at job_completed_at job_created_at : Int)
    (anns : List AnnotationData) (fetchError : Option String) : SpanData :=
  let job_labels := normalizeLabels job.labels
  let a1 : List (String × AttrValue) :=
    [("runs_on", AttrValue.str (String.join job_labels)),
     ("execution.id", AttrValue.str executionId),
     ("job.id", AttrValue.int job.id),
     ("job.run_id", AttrValue.int job.run_id),
     ("job.run_attempt", AttrValue.int
        (match job.run_attempt with
         | none => 1
         | some a => a))]
  let a2 := a1 ++
    (match job.runner_group_id with
     | some gid => [("job.runner_group_id", AttrValue.int gid)]
     | none => [])
  let a3 := a2 ++
    (match job.runner_group_id with
     | some _ => [("job.runner_group_name", optStrAttr job.runner_group_name)]
     | none => [])
  let a4 := a3 ++
    (match job.runner_name with
     | some rn => [("job.runner_name", AttrValue.str rn)]
     | none => [])
  let a5 := a4 ++
    [("job.started_at", AttrValue.int job_started_at),
     ("job.completed_at", AttrValue.int job_completed_at),
     ("job.created_at", AttrValue.int job_created_at),
     ("job.queue_time_seconds",
        AttrValue.secondsFromNanos (job_started_at - job_created_at))]
  let failMsg := "Job " ++ job.name ++ " failed"
  let attrs :=
    if job.conclusion = some "failure" then
      a5 ++ [("error", AttrValue.bool true),
             ("error.message", AttrValue.str failMsg)]
    else a5
  { name := job.name
    parent := some parentName
    startTime := job_started_at
    endTime := some job_completed_at
    attributes := attrs
    events :=
      if pyTruthyStr fetchError then []
      else anns.map (fun item =>
        { name := job.conclusion
          timestamp := job_started_at
          attributes :=
            [("message", AttrValue.str item.message),
             ("annotation_level", AttrValue.str item.annotation_level),
             ("title", AttrValue.str item.title)] })
    status :=
      if job.conclusion = some "failure" then SpanStatus.error failMsg
      else SpanStatus.unset }

/-- Processing of a single job inside the `process_jobs` loop: the three
`convert_time` calls happen unconditionally (lines 227-229), so an absent
timestamp raises; then the annotations are fetched and the span is built
and ended. -/
def processJob (executionId : String)
    (fetchFromApi : Int → Except String (List AnnotationData))
    (parent : SpanData) (job : Job) : Except String SpanData :=
  match convert_time job.started_at with
  | Except.error e => Except.error e
  | Except.ok job_started_at =>
    match convert_time job.completed_at with
    | Except.error e => Except.error e
    | Except.ok job_completed_at =>
      match convert_time job.created_at with
      | Except.error e => Except.error e
      | Except.ok job_created_at =>
        let fetched := fetch_annotations fetchFromApi job.id
        Except.ok (mkJobSpan executionId parent.name job job_started_at
          job_completed_at job_created_at fetched.1 fetched.2)

/-- The inner loop of `process_jobs` over one run's job list. -/
def processRunJobs (executionId : String)
    (fetchFromApi : Int → Except String (List AnnotationData))
    (parent : SpanData) : List Job → Except String (List SpanData)
  | [] => Except.ok []
  | job :: rest =>
    match processJob executionId fetchFromApi parent job with
    | Except.error e => Except.error e
    | Except.ok s =>
      match processRunJobs executionId fetchFromApi parent rest with
      | Except.error e => Except.error e
      | Except.ok ss => Except.ok (s :: ss)

/-- The outer loop of `process_jobs` over `zip(runs, run_spans)` pairs:
collects all jobs and their spans in run-major, job-minor order. -/
def processJobPairs (executionId : String)
    (fetchFromApi : Int → Except String (List AnnotationData)) :
    List (Run × SpanData) → Except String (List Job × List SpanData)
  | [] => Except.ok ([], [])
  | (run, parent) :: rest =>
    match processRunJobs executionId fetchFromApi parent run.jobs with
    | Except.error e => Except.error e
    | Except.ok ss =>
      match processJobPairs executionId fetchFromApi rest with
      | Except.error e => Except.error e
      | Except.ok (js, sss) => Except.ok (run.jobs ++ js, ss ++ sss)

/-- `process_jobs` (main_otel.py lines 214-298): iterates
`zip(runs, run_spans)` and each run's jobs, returning the flat job list and
the parallel span list. -/
def process_jobs (executionId : String)
    (fetchFromApi : Int → Except String (List AnnotationData))
    (runs : List Run) (run_spans : List SpanData) :
    Except String (List Job × List SpanData) :=
  processJobPairs executionId fetchFromApi (runs.zip run_spans)

/-- The span built for one step (main_otel.py lines 307-336): attributes in
`set_attribute` order, failure markers when the conclusion is `"failure"`,
and an unconditional end time. -/
def mkStepSpan (executionId : String) (parentName : String) (step : Step)
    (step_started_at step_completed_at : Int) : SpanData :=
  let baseAttrs : List (String × AttrValue) :=
    [("execution.id", AttrValue.str executionId),
     ("step.name", AttrValue.str step.name),
     ("step.number", AttrValue.int step.number),
     ("step.started_at", AttrValue.int step_started_at),
     ("step.completed_at", AttrValue.int step_completed_at)]
  let failMsg := "Step " ++ step.name ++ " failed"
  let attrs :=
    if step.conclusion = some "failure" then
      baseAttrs ++ [("error", AttrValue.bool true),
                    ("error.message", AttrValue.str failMsg)]
    else baseAttrs
  { name := step.name
    parent := some parentName
    startTime := step_started_at
    endTime := some step_completed_at
    attributes := attrs
    events := []
    status :=
      if step.conclusion = some "failure" then SpanStatus.error failMsg
      else SpanStatus.unset }

/-- Processing of a single step inside the `process_steps` loop: both
`convert_time` calls are unconditional (lines 307-308). -/
def processStep (executionId : String) (parent : SpanData) (step : Step) :
    Except String SpanData :=
  match convert_time step.started_at with
  | Except.error e => Except.error e
  | Except.ok step_started_at =>
    match convert_time step.completed_at with
    | Except.error e => Except.error e
    | Except.ok step_completed_at =>
      Except.ok (mkStepSpan executionId parent.name step step_started_at
        step_completed_at)

/-- The inner loop of `process_steps` over one job's step list. -/
def processJobSteps (executionId : String) (parent : SpanData) :
    List Step → Except String (List SpanData)
  | [] => Except.ok []
  | step :: rest =>
    match processStep executionId parent step with
    | Except.error e => Except.error e
    | Except.ok s =>
      match processJobSteps executionId parent rest with
      | Except.error e => Except.error e
      | Except.ok ss => Except.ok (s :: ss)

/-- `process_steps` (main_otel.py lines 301-342) over `zip(jobs, job_spans)`
pairs: one span per step in job-major, step-minor order.  The source
returns the flat step list; the embedding also returns the emitted spans,
which are its observable effect. -/
def process_steps (executionId : String) :
    List (Job × SpanData) → Except String (List Step × List SpanData)
  | [] => Except.ok ([], [])
  | (job, parent) :: rest =>
    match processJobSteps executionId parent job.steps with
    | Except.error e => Except.error e
    | Except.ok ss =>
      match process_steps executionId rest with
      | Except.error e => Except.error e
      | Except.ok (sts, sss) => Except.ok (job.steps ++ sts, ss ++ sss)

/-- The keyword arguments of `get_args`: `kwargs.get(k)` is `None` for an
absent key.  `endDate` stands for the Python key `"end"`. -/
structure Kwargs where
  repo : Option String
  workflow : Option String
  org : Option String
  start : Option String
  endDate : Option String
  skipsteps : Option Bool
deriving DecidableEq, Repr

/-- A call made to the GitHub client object `g`. -/
inductive ApiCall where
  | getUser
deriving DecidableEq, Repr

/-- The outcome of `get_args`: either `sys.exit()` after printing a
message, or the returned tuple. -/
inductive GetArgsResult where
  | exitWith (msg : String)
  | ok (org repo workflow : String) (start endDate : Option String)
      (skip : Bool)
deriving DecidableEq, Repr

/-- `get_args` (main_otel.py lines 95-126), together with the trace of
GitHub client calls it performs: the required-argument check comes first;
then, BEFORE the start/end consistency check, an absent `org` is defaulted
via `g.get_user().login`; a half-specified date range then exits. -/
def get_args (userLogin : String) (kw : Kwargs) :
    GetArgsResult × List ApiCall :=
  match kw.repo, kw.workflow with
  | none, _ =>
    (GetArgsResult.exitWith "Missing required arguments (repo) and/or (workflow)", [])
  | some _, none =>
    (GetArgsResult.exitWith "Missing required arguments (repo) and/or (workflow)", [])
  | some repo_name, some workflow_name =>
    let orgCalls : String × List ApiCall :=
      match kw.org with
      | none => (userLogin, [ApiCall.getUser])
      | some o => (o, [])
    if (kw.start.isNone && kw.endDate.isSome)
        || (kw.start.isSome && kw.endDate.isNone) then
      (GetArgsResult.exitWith "Missing start or end timestamp", orgCalls.2)
    else
      let skip : Bool :=
        match kw.skipsteps with
        | some b => b
        | none => false
      (GetArgsResult.ok orgCalls.1 repo_name workflow_name kw.start kw.endDate
        skip, orgCalls.2)

/-- A timestamp of a whole number of seconds since the epoch. -/
def wholeSeconds (sec : Int) : Datetime :=
  ⟨sec, 0, by norm_num⟩

/-- Success inversion for `processRun`: the start time must be present, and
the completion time is computed only for a `"completed"` status. -/
theorem processRun_ok_iff (wfId : Int) (eid today : String) (run : Run)
    (s : SpanData) :
    processRun wfId eid today run = Except.ok s ↔
    ∃ d1, run.run_started_at = some d1 ∧
      ((run.status = "completed" ∧ ∃ d2, run.updated_at = some d2 ∧
          s = mkRunSpan wfId eid today run d1.toNanos (some d2.toNanos)) ∨
       (¬ run.status = "completed" ∧
          s = mkRunSpan wfId eid today run d1.toNanos none)) := by
  unfold processRun runCompletedAt
  cases h1 : run.run_started_at with
  | none => simp [convert_time]
  | some d1 =>
    by_cases hst : run.status = "completed"
    · cases h2 : run.updated_at with
      | none => simp [convert_time, hst, eq_comm]
      | some d2 => simp [convert_time, hst, eq_comm]
    · simp [convert_time, hst, eq_comm]

/-- Success inversion for `processJob`: all three job timestamps must be
present. -/
theorem processJob_ok_iff (eid : String)
    (api : Int → Except String (List AnnotationData)) (parent : SpanData)
    (job : Job) (s : SpanData) :
    processJob eid api parent job = Except.ok s ↔
    ∃ d1 d2 d3, job.started_at = some d1 ∧ job.completed_at = some d2 ∧
      job.created_at = some d3 ∧
      s = mkJobSpan eid parent.name job d1.toNanos d2.toNanos d3.toNanos
            (fetch_annotations api job.id).1
            (fetch_annotations api job.id).2 := by
  unfold processJob
  cases h1 : job.started_at with
  | none => simp [convert_time]
  | some d1 =>
    cases h2 : job.completed_at with
    | none => simp [convert_time]
    | some d2 =>
      cases h3 : job.created_at with
      | none => simp [convert_time]
      | some d3 => simp [convert_time, eq_comm]

/-- Success inversion for `processStep`: both step timestamps must be
present. -/
theorem processStep_ok_iff (eid : String) (parent : SpanData) (step : Step)
    (s : SpanData) :
    processStep eid parent step = Except.ok s ↔
    ∃ d1 d2, step.started_at = some d1 ∧ step.completed_at = some d2 ∧
      s = mkStepSpan eid parent.name step d1.toNanos d2.toNanos := by
  unfold processStep
  cases h1 : step.started_at with
  | none => simp [convert_time]
  | some d1 =>
    cases h2 : step.completed_at with
    | none => simp [convert_time]
    | some d2 => simp [convert_time, eq_comm]

/-- `pySplit` always produces at least one field, like Python `split`. -/
theorem pySplit_ne_nil (sep : Char) (l : List Char) : pySplit sep l ≠ [] := by
  cases l with
  | nil => simp [pySplit]
  | cons c rest =>
    unfold pySplit
    by_cases h : c = sep
    · simp [h]
    · cases hr : pySplit sep rest with
      | nil => simp [h, hr]
      | cons g gs => simp [h, hr]

/-- The first `.`-field of a character list is its longest dot-free
prefix. -/
theorem pySplit_headD_takeWhile (l : List Char) :
    (pySplit '.' l).headD [] = l.takeWhile (fun c => c ≠ '.') := by
  induction l with
  | nil => rfl
  | cons c rest ih =>
    unfold pySplit
    by_cases h : c = '.'
    · simp [h]
    · cases hr : pySplit '.' rest with
      | nil => exact absurd hr (pySplit_ne_nil _ _)
      | cons g gs =>
        rw [hr] at ih
        simp [h, hr, List.takeWhile]
        simpa using ih

/-- A placeholder parent span used when instantiating the per-job and
per-step emitters on concrete inputs. -/
def dummySpan : SpanData :=
  { name := "parent", parent := none, startTime := 0, endTime := none,
    attributes := [], events := [], status := SpanStatus.unset }

/-- An annotation API that always succeeds with no annotations. -/
def okApi : Int → Except String (List AnnotationData) :=
  fun _ => Except.ok []

/-- An annotation API that always raises. -/
def failApi : Int → Except String (List AnnotationData) :=
  fun _ => Except.error "404 not found"

/-- C3: corrected.  The claim says `convert_time` returns a sentinel
"absent" value on a `None` input; in fact `None.timestamp` raises, so the
call fails instead of returning anything. -/
theorem C3_counterexample : (convert_time none).isOk = false := rfl

/-- C3 (amended): `convert_time` maps every present timestamp to the
integer nanosecond count since the epoch, but it is not total: on an
absent (`None`) input it raises instead of returning a sentinel; absence is
handled only by callers that avoid invoking it. -/
theorem C3_partial_on_absent :
    (∀ t : Datetime,
      convert_time (some t) = Except.ok (t.sec * 1000000000 + (t.usec : Int) * 1000)) ∧
    convert_time none =
      Except.error "AttributeError: NoneType has no attribute timestamp" :=
  ⟨fun _ => rfl, rfl⟩

/-- A run fixture whose workflow path has a dotted basename. -/
def c5run : Run :=
  { id := 5, run_number := 12, run_attempt := some 2, html_url := "u",
    event := "push", name := some "nightly", path := "some/path/my.workflow.yml",
    status := "in_progress", conclusion := none,
    run_started_at := some (wholeSeconds 1000), updated_at := none, jobs := [] }

/-- C5: corrected.  On the basename `my.workflow.yml` the emitted span name
is `"my"` (everything before the FIRST dot), not the `"my.workflow"` the
claim's basename-minus-suffix reading expects. -/
theorem C5_counterexample :
    Except.map SpanData.name (processRun 3 "e" "t" c5run) = Except.ok "my" ∧
    ("my" : String) ≠ "my.workflow" :=
  ⟨rfl, by decide⟩

/-- C5 (amended): the run span's name is the last `/`-component of the
run's `path` truncated before the first `.` — the longest dot-free prefix
of the basename — so a basename with a dotted stem loses everything from
its first dot on. -/
theorem C5_name_is_basename_before_first_dot
    (wfId : Int) (eid today : String) (run : Run) (s : SpanData)
    (h : processRun wfId eid today run = Except.ok s) :
    s.name = run_display_name run.path ∧
    (∀ path : String, run_display_name path =
      String.mk (((pySplit '/' path.toList).getLastD []).takeWhile
        (fun c => c ≠ '.'))) ∧
    run_display_name "some/path/my.workflow.yml" = "my" := by
  refine ⟨?_, fun path => ?_, rfl⟩
  · rw [processRun_ok_iff] at h
    obtain ⟨d1, _, hcase⟩ := h
    rcases hcase with ⟨_, _, _, hs⟩ | ⟨_, hs⟩ <;> subst hs <;> rfl
  · show String.mk ((pySplit '.' ((pySplit '/' path.toList).getLastD [])).headD []) = _
    rw [pySplit_headD_takeWhile]

/-- C5 witness: the amended statement instantiated on `c5run`. -/
theorem C5_name_witness :
    (mkRunSpan 3 "e" "t" c5run (wholeSeconds 1000).toNanos none).name =
      run_display_name c5run.path ∧
    (∀ path : String, run_display_name path =
      String.mk (((pySplit '/' path.toList).getLastD []).takeWhile
        (fun c => c ≠ '.'))) ∧
    run_display_name "some/path/my.workflow.yml" = "my" :=
  C5_name_is_basename_before_first_dot 3 "e" "t" c5run _ rfl

/-- A job fixture with every timestamp present. -/
def wjob : Job :=
  { id := 9, run_id := 1, name := "build", run_attempt := none,
    labels := LabelsField.pyList ["ubuntu-latest"],
    runner_group_id := some 4, runner_group_name := some "default",
    runner_name := some "runner-1",
    created_at := some (wholeSeconds 90), started_at := some (wholeSeconds 100),
    completed_at := some (wholeSeconds 200), conclusion := some "failure",
    steps := [] }

/-- The span `processJob` emits for `wjob` under `okApi`. -/
def wjobSpan : SpanData :=
  mkJobSpan "e" dummySpan.name wjob (wholeSeconds 100).toNanos
    (wholeSeconds 200).toNanos (wholeSeconds 90).toNanos [] none

/-- A completed, failed run fixture containing `wjob`. -/
def wrun : Run :=
  { id := 1, run_number := 7, run_attempt := none, html_url := "u",
    event := "push", name := some "nightly", path := "w/ci.yml",
    status := "completed", conclusion := some "failure",
    run_started_at := some (wholeSeconds 100),
    updated_at := some (wholeSeconds 1900), jobs := [wjob] }

/-- The span `processRun` emits for `wrun`. -/
def wrunSpan : SpanData :=
  mkRunSpan 1 "e" "t" wrun (wholeSeconds 100).toNanos
    (some (wholeSeconds 1900).toNanos)

/-- C7: confirmed.  The label normalization of `process_jobs` maps `None`
to the empty list, a scalar to a singleton, and keeps a list or tuple
unchanged; the `runs_on` attribute carries the concatenation of the
normalized list. -/
theorem C7_label_normalization
    (eid : String) (api : Int → Except String (List AnnotationData))
    (parent : SpanData) (job : Job) (s : SpanData)
    (h : processJob eid api parent job = Except.ok s) :
    normalizeLabels LabelsField.pyNone = [] ∧
    (∀ x : String, normalizeLabels (LabelsField.pyScalar x) = [x]) ∧
    (∀ ls : List String, normalizeLabels (LabelsField.pyList ls) = ls) ∧
    (∀ ls : List String, normalizeLabels (LabelsField.pyTuple ls) = ls) ∧
    lookupAttr "runs_on" s.attributes =
      some (AttrValue.str (String.join (normalizeLabels job.labels))) := by
  refine ⟨rfl, fun _ => rfl, fun _ => rfl, fun _ => rfl, ?_⟩
  rw [processJob_ok_iff] at h
  obtain ⟨d1, d2, d3, _, _, _, hs⟩ := h
  subst hs
  unfold mkJobSpan
  by_cases hc : job.conclusion = some "failure" <;> simp [hc, lookupAttr]

/-- C7 witness: the normalization facts instantiated on `wjob`. -/
theorem C7_label_witness :
    normalizeLabels LabelsField.pyNone = [] ∧
    (∀ x : String, normalizeLabels (LabelsField.pyScalar x) = [x]) ∧
    (∀ ls : List String, normalizeLabels (LabelsField.pyList ls) = ls) ∧
    (∀ ls : List String, normalizeLabels (LabelsField.pyTuple ls) = ls) ∧
    lookupAttr "runs_on" wjobSpan.attributes =
      some (AttrValue.str (String.join (normalizeLabels wjob.labels))) :=
  C7_label_normalization "e" okApi dummySpan wjob wjobSpan rfl

/-- C8: confirmed.  Both the run span and the job span always carry an
integer attempt attribute: an absent source attempt becomes exactly `1`,
a present one is passed through. -/
theorem C8_run_attempt_never_absent
    (wfId : Int) (eid today : String) (run : Run) (sr : SpanData)
    (api : Int → Except String (List AnnotationData)) (parent : SpanData)
    (job : Job) (sj : SpanData)
    (hr : processRun wfId eid today run = Except.ok sr)
    (hj : processJob eid api parent job = Except.ok sj) :
    lookupAttr "run.run_attempt" sr.attributes =
      some (AttrValue.int (run.run_attempt.getD 1)) ∧
    lookupAttr "job.run_attempt" sj.attributes =
      some (AttrValue.int (job.run_attempt.getD 1)) := by
  constructor
  · rw [processRun_ok_iff] at hr
    obtain ⟨d1, _, hcase⟩ := hr
    rcases hcase with ⟨_, _, _, hs⟩ | ⟨_, hs⟩ <;> subst hs <;>
      unfold mkRunSpan <;>
      cases run.run_attempt <;>
      by_cases hc : run.conclusion = some "failure" <;>
      simp [hc, lookupAttr]
  · rw [processJob_ok_iff] at hj
    obtain ⟨d1, d2, d3, _, _, _, hs⟩ := hj
    subst hs
    unfold mkJobSpan
    cases job.run_attempt <;>
      by_cases hc : job.conclusion = some "failure" <;>
      simp [hc, lookupAttr]

/-- C8 witness: the attempt-attribute facts instantiated on `wrun` (absent
run attempt) and `wjob` (absent job attempt). -/
theorem C8_attempt_witness :
    lookupAttr "run.run_attempt" wrunSpan.attributes =
      some (AttrValue.int (wrun.run_attempt.getD 1)) ∧
    lookupAttr "job.run_attempt" wjobSpan.attributes =
      some (AttrValue.int (wjob.run_attempt.getD 1)) :=
  C8_run_attempt_never_absent 1 "e" "t" wrun wrunSpan okApi dummySpan wjob
    wjobSpan rfl rfl

/-- The three failure markers of the spec: error status carrying the given
message, boolean attribute `error = true`, and an `error.message` attribute
with the same message. -/
def hasErrorMarkers (s : SpanData) (msg : String) : Prop :=
  s.status = SpanStatus.error msg ∧
  lookupAttr "error" s.attributes = some (AttrValue.bool true) ∧
  lookupAttr "error.message" s.attributes = some (AttrValue.str msg)

/-- No failure marker at all: status unset and neither an `error` nor an
`error.message` attribute. -/
def hasNoErrorMarkers (s : SpanData) : Prop :=
  s.status = SpanStatus.unset ∧
  lookupAttr "error" s.attributes = none ∧
  lookupAttr "error.message" s.attributes = none

/-- A step fixture with both timestamps present. -/
def wstep : Step :=
  { name := "checkout", number := 1, started_at := some (wholeSeconds 110),
    completed_at := some (wholeSeconds 120), conclusion := some "success" }

/-- The span `processStep` emits for `wstep`. -/
def wstepSpan : SpanData :=
  mkStepSpan "e" dummySpan.name wstep (wholeSeconds 110).toNanos
    (wholeSeconds 120).toNanos

/-- C1: confirmed.  For runs, jobs and steps alike, the emitted span
carries error status (with the respective `"... failed"` message), the
boolean `error` attribute and the `error.message` attribute exactly when
the record's conclusion is `"failure"`; for every other conclusion none of
the markers is present. -/
theorem C1_error_markers_iff_failure
    (wfId : Int) (eid today : String) (run : Run) (sr : SpanData)
    (api : Int → Except String (List AnnotationData))
    (parentJ parentS : SpanData) (job : Job) (sj : SpanData) (step : Step)
    (ss : SpanData)
    (hr : processRun wfId eid today run = Except.ok sr)
    (hj : processJob eid api parentJ job = Except.ok sj)
    (hs : processStep eid parentS step = Except.ok ss) :
    ((run.conclusion = some "failure" ↔
        hasErrorMarkers sr ("Run " ++ toString run.run_number ++ " failed")) ∧
     (run.conclusion ≠ some "failure" → hasNoErrorMarkers sr)) ∧
    ((job.conclusion = some "failure" ↔
        hasErrorMarkers sj ("Job " ++ job.name ++ " failed")) ∧
     (job.conclusion ≠ some "failure" → hasNoErrorMarkers sj)) ∧
    ((step.conclusion = some "failure" ↔
        hasErrorMarkers ss ("Step " ++ step.name ++ " failed")) ∧
     (step.conclusion ≠ some "failure" → hasNoErrorMarkers ss)) := by
  refine ⟨?_, ?_, ?_⟩
  · rw [processRun_ok_iff] at hr
    obtain ⟨d1, _, hcase⟩ := hr
    rcases hcase with ⟨_, _, _, h⟩ | ⟨_, h⟩ <;> subst h <;>
      unfold mkRunSpan <;>
      by_cases hc : run.conclusion = some "failure" <;>
      simp [hc, hasErrorMarkers, hasNoErrorMarkers, lookupAttr]
  · rw [processJob_ok_iff] at hj
    obtain ⟨d1, d2, d3, _, _, _, h⟩ := hj
    subst h
    unfold mkJobSpan
    cases hgid : job.runner_group_id <;> cases hrn : job.runner_name <;>
      by_cases hc : job.conclusion = some "failure" <;>
      simp [hc, hasErrorMarkers, hasNoErrorMarkers, lookupAttr]
  · rw [processStep_ok_iff] at hs
    obtain ⟨d1, d2, _, _, h⟩ := hs
    subst h
    unfold mkStepSpan
    by_cases hc : step.conclusion = some "failure" <;>
      simp [hc, hasErrorMarkers, hasNoErrorMarkers, lookupAttr]

/-- C1 witness: the marker equivalences instantiated on the failed `wrun`,
the failed `wjob` and the successful `wstep`. -/
theorem C1_marker_witness :
    ((wrun.conclusion = some "failure" ↔
        hasErrorMarkers wrunSpan ("Run " ++ toString wrun.run_number ++ " failed")) ∧
     (wrun.conclusion ≠ some "failure" → hasNoErrorMarkers wrunSpan)) ∧
    ((wjob.conclusion = some "failure" ↔
        hasErrorMarkers wjobSpan ("Job " ++ wjob.name ++ " failed")) ∧
     (wjob.conclusion ≠ some "failure" → hasNoErrorMarkers wjobSpan)) ∧
    ((wstep.conclusion = some "failure" ↔
        hasErrorMarkers wstepSpan ("Step " ++ wstep.name ++ " failed")) ∧
     (wstep.conclusion ≠ some "failure" → hasNoErrorMarkers wstepSpan)) :=
  C1_error_markers_iff_failure 1 "e" "t" wrun wrunSpan okApi dummySpan
    dummySpan wjob wjobSpan wstep wstepSpan rfl rfl rfl

/-- A completed run fixture whose `updated_at` is exactly the Unix epoch,
so its normalized completion time is the integer `0`. -/
def c2run : Run :=
  { id := 2, run_number := 3, run_attempt := some 1, html_url := "u",
    event := "push", name := some "epoch", path := "w/ci.yml",
    status := "completed", conclusion := some "success",
    run_started_at := some (wholeSeconds (-50)),
    updated_at := some (wholeSeconds 0), jobs := [] }

/-- C2: corrected.  A run whose status is `"completed"` and whose
normalized `updated_at` is the integer `0` is NOT ended: line 205 tests the
completion time for Python truthiness (`if run_completed_at:`), and `0` is
falsy, so the span stays open even though a completion time exists. -/
theorem C2_counterexample :
    c2run.status = "completed" ∧
    c2run.updated_at = some (wholeSeconds 0) ∧
    Except.map SpanData.endTime (processRun 1 "e" "t" c2run) =
      Except.ok none :=
  ⟨rfl, rfl, rfl⟩

/-- C2 (amended): the run span is ended at the normalized `updated_at`
exactly when the status is `"completed"` AND that normalized value is a
truthy (nonzero) integer; a completed run normalizing to `0` is left open,
and for any other status the completion time is treated as absent (the
`run.updated_at` attribute records `None`) and the span is left open. -/
theorem C2_end_iff_completed_and_truthy
    (wfId : Int) (eid today : String) (run : Run) (s : SpanData)
    (h : processRun wfId eid today run = Except.ok s) :
    (run.status = "completed" →
      ∃ d, run.updated_at = some d ∧
        s.endTime = (if d.toNanos = 0 then none else some d.toNanos) ∧
        lookupAttr "run.updated_at" s.attributes =
          some (AttrValue.int d.toNanos)) ∧
    (run.status ≠ "completed" →
      s.endTime = none ∧
      lookupAttr "run.updated_at" s.attributes = some AttrValue.noneVal) := by
  rw [processRun_ok_iff] at h
  obtain ⟨d1, _, hcase⟩ := h
  rcases hcase with ⟨hst, d2, hupd, hspan⟩ | ⟨hst, hspan⟩
  · subst hspan
    refine ⟨fun _ => ⟨d2, hupd, ?_, ?_⟩, fun hne => absurd hst hne⟩
    · by_cases hz : d2.toNanos = 0 <;> simp [mkRunSpan, pyTruthyInt, hz]
    · by_cases hc : run.conclusion = some "failure" <;>
        simp [mkRunSpan, hc, lookupAttr, optIntAttr]
  · subst hspan
    refine ⟨fun hcm => absurd hcm hst, fun _ => ⟨?_, ?_⟩⟩
    · simp [mkRunSpan, pyTruthyInt]
    · by_cases hc : run.conclusion = some "failure" <;>
        simp [mkRunSpan, hc, lookupAttr, optIntAttr]

/-- C2 witness: the amended statement instantiated on `wrun`, a completed
run with a nonzero normalized completion time. -/
theorem C2_end_witness :
    (wrun.status = "completed" →
      ∃ d, wrun.updated_at = some d ∧
        wrunSpan.endTime = (if d.toNanos = 0 then none else some d.toNanos) ∧
        lookupAttr "run.updated_at" wrunSpan.attributes =
          some (AttrValue.int d.toNanos)) ∧
    (wrun.status ≠ "completed" →
      wrunSpan.endTime = none ∧
      lookupAttr "run.updated_at" wrunSpan.attributes =
        some AttrValue.noneVal) :=
  C2_end_iff_completed_and_truthy 1 "e" "t" wrun wrunSpan rfl

/-- Keyword arguments with a half-specified date range and no `org`. -/
def c4kw : Kwargs :=
  { repo := some "r", workflow := some "w", org := none,
    start := some "2024-01-01", endDate := none, skipsteps := none }

/-- C4: corrected.  With `org` absent and only `start` given, `get_args`
does halt, but only AFTER calling `g.get_user()` to default the
organization (lines 106-109 precede the range check of line 116), so a
client call does reach the hosting service before the halt. -/
theorem C4_counterexample :
    (get_args "someuser" c4kw).1 =
      GetArgsResult.exitWith "Missing start or end timestamp" ∧
    (get_args "someuser" c4kw).2 = [ApiCall.getUser] :=
  ⟨rfl, rfl⟩

/-- C4 (amended): whenever the required arguments are present and the
start/end range is half-specified, `get_args` halts fatally; when `org` is
provided no client call precedes the halt, but when `org` is absent exactly
one `get_user` call is made before it. -/
theorem C4_halt_after_org_default
    (login : String) (kw : Kwargs)
    (hrep : kw.repo.isSome) (hwf : kw.workflow.isSome)
    (hhalf : kw.start.isNone ≠ kw.endDate.isNone) :
    get_args login kw =
      (GetArgsResult.exitWith "Missing start or end timestamp",
       match kw.org with
       | none => [ApiCall.getUser]
       | some _ => []) := by
  obtain ⟨r, hr⟩ := Option.isSome_iff_exists.mp hrep
  obtain ⟨w, hw⟩ := Option.isSome_iff_exists.mp hwf
  cases hst : kw.start <;> cases hed : kw.endDate <;>
    rw [hst, hed] at hhalf <;> simp at hhalf <;>
    cases ho : kw.org <;>
    simp [get_args, hr, hw, hst, hed, ho]

/-- C4 witness: the amended statement instantiated on `c4kw`. -/
theorem C4_halt_witness :
    get_args "someuser" c4kw =
      (GetArgsResult.exitWith "Missing start or end timestamp",
       match c4kw.org with
       | none => [ApiCall.getUser]
       | some _ => []) :=
  C4_halt_after_org_default "someuser" c4kw rfl rfl (by decide)

/-- A job whose three timestamps are present is processed successfully,
whatever the annotation API does. -/
theorem processJob_isOk (eid : String)
    (api : Int → Except String (List AnnotationData)) (parent : SpanData)
    (job : Job) (h1 : job.started_at.isSome) (h2 : job.completed_at.isSome)
    (h3 : job.created_at.isSome) :
    ∃ s, processJob eid api parent job = Except.ok s := by
  obtain ⟨d1, hd1⟩ := Option.isSome_iff_exists.mp h1
  obtain ⟨d2, hd2⟩ := Option.isSome_iff_exists.mp h2
  obtain ⟨d3, hd3⟩ := Option.isSome_iff_exists.mp h3
  exact ⟨_, (processJob_ok_iff _ _ _ _ _).mpr ⟨d1, d2, d3, hd1, hd2, hd3, rfl⟩⟩

/-- One run's job loop succeeds with one span per job when every job's
timestamps are present, whatever the annotation API does. -/
theorem processRunJobs_ok (eid : String)
    (api : Int → Except String (List AnnotationData)) (parent : SpanData)
    (jobs : List Job)
    (h : ∀ j ∈ jobs,
      j.started_at.isSome ∧ j.completed_at.isSome ∧ j.created_at.isSome) :
    ∃ ss, processRunJobs eid api parent jobs = Except.ok ss ∧
      ss.length = jobs.length := by
  induction jobs with
  | nil => exact ⟨[], rfl, rfl⟩
  | cons j rest ih =>
    obtain ⟨hj1, hj2, hj3⟩ := h j (List.mem_cons_self j rest)
    obtain ⟨s, hs⟩ := processJob_isOk eid api parent j hj1 hj2 hj3
    obtain ⟨ss, hss, hlen⟩ := ih (fun x hx => h x (List.mem_cons_of_mem _ hx))
    refine ⟨s :: ss, ?_, by simp [hlen]⟩
    simp [processRunJobs, hs, hss]

/-- The outer job loop succeeds with one span per job across all pairs when
every job's timestamps are present, whatever the annotation API does. -/
theorem processJobPairs_ok (eid : String)
    (api : Int → Except String (List AnnotationData))
    (pairs : List (Run × SpanData))
    (h : ∀ p ∈ pairs, ∀ j ∈ p.1.jobs,
      j.started_at.isSome ∧ j.completed_at.isSome ∧ j.created_at.isSome) :
    ∃ res, processJobPairs eid api pairs = Except.ok res ∧
      res.1.length = (pairs.map (fun p => p.1.jobs.length)).sum ∧
      res.2.length = (pairs.map (fun p => p.1.jobs.length)).sum := by
  induction pairs with
  | nil => exact ⟨([], []), rfl, rfl, rfl⟩
  | cons p rest ih =>
    obtain ⟨run, parent⟩ := p
    obtain ⟨ss, hss, hlen⟩ :=
      processRunJobs_ok eid api parent run.jobs (h _ (List.mem_cons_self _ rest))
    obtain ⟨⟨js, sss⟩, hres, hl1, hl2⟩ :=
      ih (fun q hq => h q (List.mem_cons_of_mem _ hq))
    refine ⟨(run.jobs ++ js, ss ++ sss), ?_, ?_, ?_⟩
    · simp [processJobPairs, hss, hres]
    · simp [hl1]
    · simp [hlen, hl2]

/-- C6: confirmed.  `fetch_annotations` turns any API failure into an empty
annotation list plus the (non-null) error string, and `process_jobs`
emits one span per job whatever the annotation API answers — in particular
a fetch failure for some job prevents no span, for that job or any later
one. -/
theorem C6_annotation_failures_isolated
    (api : Int → Except String (List AnnotationData)) (jid : Int)
    (e : String) (hfail : api jid = Except.error e) (eid : String)
    (runs : List Run) (run_spans : List SpanData)
    (hok : ∀ p ∈ runs.zip run_spans, ∀ j ∈ p.1.jobs,
      j.started_at.isSome ∧ j.completed_at.isSome ∧ j.created_at.isSome) :
    fetch_annotations api jid = ([], some e) ∧
    ∃ res, process_jobs eid api runs run_spans = Except.ok res ∧
      res.2.length =
        ((runs.zip run_spans).map (fun p => p.1.jobs.length)).sum := by
  constructor
  · simp [fetch_annotations, hfail]
  · obtain ⟨res, hres, _, hl2⟩ :=
      processJobPairs_ok eid api (runs.zip run_spans) hok
    exact ⟨res, hres, hl2⟩

/-- C6 witness: an always-raising annotation API on the one-run, one-job
input `[wrun]`. -/
theorem C6_isolation_witness :
    fetch_annotations failApi 9 = ([], some "404 not found") ∧
    ∃ res, process_jobs "e" failApi [wrun] [wrunSpan] = Except.ok res ∧
      res.2.length =
        (([wrun].zip [wrunSpan]).map (fun p => p.1.jobs.length)).sum :=
  C6_annotation_failures_isolated failApi 9 "404 not found" rfl "e" [wrun]
    [wrunSpan] (by decide)

/-- The job of `c10run`: started but with no completion timestamp. -/
def c10job : Job := { wjob with id := 10, completed_at := none }

/-- A run whose only job lacks a completion timestamp. -/
def c10run : Run := { wrun with jobs := [c10job] }

/-- C10: confirmed.  Every successfully processed job span is ended at the
normalized completion time — there is no open-job path — and on a job whose
`completed_at` is absent the unconditional `convert_time` raises, so the
whole `process_jobs` pass aborts instead of leaving the span open. -/
theorem C10_jobs_closed_or_abort (eid : String)
    (api : Int → Except String (List AnnotationData)) (parent : SpanData)
    (job : Job) (s : SpanData)
    (h : processJob eid api parent job = Except.ok s) :
    (∃ d, job.completed_at = some d ∧ s.endTime = some d.toNanos) ∧
    (process_jobs "e" okApi [c10run] [wrunSpan]).isOk = false := by
  constructor
  · rw [processJob_ok_iff] at h
    obtain ⟨d1, d2, d3, _, hc, _, hspan⟩ := h
    subst hspan
    exact ⟨d2, hc, rfl⟩
  · rfl

/-- C10 witness: the closing fact instantiated on `wjob`. -/
theorem C10_closed_witness :
    (∃ d, wjob.completed_at = some d ∧ wjobSpan.endTime = some d.toNanos) ∧
    (process_jobs "e" okApi [c10run] [wrunSpan]).isOk = false :=
  C10_jobs_closed_or_abort "e" okApi dummySpan wjob wjobSpan rfl
